import Mathlib

/-!
Verification of the submission evaluation pipeline of eval.py.

This file gives a shallow embedding of the script's core components:
CommandExecutor (external command sequencing with short-circuit on
failure), the extraction / build / binary-location helpers, TestRunner
(per-fixture three-stage pipeline) and Evaluator (per-submission
orchestration and scoring).

External effects are modelled by an explicit environment:
a function from the current working directory and a command string to
the exit code and combined stdout+stderr of one bash invocation, and a
function from a directory path to its listing. Pure Python values
(dicts, lists, tuples) become Lean structures and lists; Python float
scores become exact rationals (all scores are multiples of 0.5, which
floats represent exactly); raised exceptions become Except values.
-/

/-- One directory entry together with the two file-system predicates the
script queries about it (os.path.isfile and os.access X_OK). -/
structure FSEntry where
  name : String
  isFile : Bool
  isExec : Bool
deriving DecidableEq, Repr

/-- The external world as the script observes it: the behaviour of one
bash invocation (given the current working directory of the Python
process and the command string, the exit code and the combined
stdout+stderr that subprocess.check_output captures), and directory
listings (os.listdir together with the file-system predicates). -/
structure Env where
  bash : String → String → Int × String
  listdir : String → List FSEntry

/-- The exception classes of eval.py that flow into a result's
error_obj field. -/
inductive EvalError where
  | ivTarName
  | extractError
  | ivDirStruct
  | makeError
  | binaryNotFound
  | testRunError
deriving DecidableEq, Repr

/-- A submission record as produced by extract_submissions / main:
the lower-cased roll number and the path of the submission tar. -/
structure Submission where
  rollno : String
  tarpath : String
deriving DecidableEq, Repr

/-- One test case: its id and the full paths of its input and expected
output files (the two keys TestRunner reads). -/
structure Testcase where
  id : String
  input : String
  output : String
deriving DecidableEq, Repr

/-- CommandExecutor._run_bash: one bash invocation. On exit code 0 the
captured combined output is returned in out and errstr stays None; on a
non-zero exit, out stays None and the captured output is returned in
errstr together with the exit code (subprocess.CalledProcessError). -/
def run_bash (env : Env) (cwd cmd : String) : Int × Option String × Option String :=
  let r := env.bash cwd cmd
  if r.1 = 0 then (0, some r.2, none) else (r.1, none, some r.2)

/-- CommandExecutor.run: runs the command strings in order, stopping at
the first non-zero exit and returning that command's (ret, out, err)
triple; otherwise returns the last command's triple (and (None, None,
None) for an empty sequence). The second component is the list of
commands actually executed, instrumenting the spawned-process effect. -/
def CommandExecutor.run (env : Env) (cwd : String) :
    List String → (Option Int × Option String × Option String) × List String
  | [] => ((none, none, none), [])
  | cmd :: rest =>
    let r := run_bash env cwd cmd
    if r.1 ≠ 0 then ((some r.1, r.2.1, r.2.2), [cmd])
    else
      match rest with
      | [] => ((some r.1, r.2.1, r.2.2), [cmd])
      | _ :: _ =>
        let next := CommandExecutor.run env cwd rest
        (next.1, cmd :: next.2)

/-- extract_tar: mkdir -p the target directory, then untar the archive
into it with --strip 1; raises ExtractError on a non-zero exit of
either command. -/
def extract_tar (env : Env) (cwd tar_path dir_path : String) : Except EvalError Unit :=
  let r1 := (CommandExecutor.run env cwd ["mkdir -p \"" ++ dir_path ++ "\""]).1
  if r1.1 ≠ some 0 then Except.error EvalError.extractError
  else
    let r2 := (CommandExecutor.run env cwd
      ["tar -xvf \"" ++ tar_path ++ "\" -C \"" ++ dir_path ++ "\" --strip 1"]).1
    if r2.1 ≠ some 0 then Except.error EvalError.extractError
    else Except.ok ()

/-- find_binary: if some entry of the directory is literally named
a.out, return its path; otherwise return the first entry that is a
regular file and executable; otherwise raise BinaryNotFound. -/
def find_binary (entries : List FSEntry) (dir_path : String) : Except EvalError String :=
  if (entries.map FSEntry.name).contains "a.out" then
    Except.ok (dir_path ++ "/" ++ "a.out")
  else
    match entries.find? (fun e => e.isFile && e.isExec) with
    | some e => Except.ok (dir_path ++ "/" ++ e.name)
    | none => Except.error EvalError.binaryNotFound

/-- build_subm: remembers the current working directory, changes into
the submission directory, runs make clean (result overwritten, never
inspected) then make, changes back to the remembered directory, and
only then raises MakeError when make exited non-zero. The returned
String is the Python process's working directory after the call. -/
def build_subm (env : Env) (cwd subm_path : String) : Except EvalError Unit × String :=
  let cwd0 := cwd
  let cwd1 := subm_path
  let _rclean := (CommandExecutor.run env cwd1 ["make clean"]).1
  let rmake := (CommandExecutor.run env cwd1 ["make"]).1
  let cwd2 := cwd0
  if rmake.1 ≠ some 0 then (Except.error EvalError.makeError, cwd2)
  else (Except.ok (), cwd2)

/-- Leading and trailing characters removed by Python's str.strip():
space, tab, newline, vertical tab, form feed, carriage return. -/
def pyWhitespace (c : Char) : Bool :=
  c = ' ' || c = '\t' || c = '\n' || c = '\x0b' || c = '\x0c' || c = '\r'

/-- Python's str.strip(): drop pyWhitespace characters from both ends. -/
def pyStrip (s : String) : String :=
  String.mk (((s.toList.dropWhile pyWhitespace).reverse.dropWhile pyWhitespace).reverse)

/-- The stage-1 command string of TestRunner.run: run the submission
binary on the test input, capturing stdout into assembly.s. -/
def TestRunner.cmd1 (bin_path subm_path inp : String) : String :=
  "\"" ++ bin_path ++ "\" < \"" ++ inp ++ "\" > \"" ++ (subm_path ++ "/" ++ "assembly.s") ++ "\""

/-- The stage-2 command string of TestRunner.run: compile the generated
assembly with the pinned gcc into generated.out. -/
def TestRunner.cmd2 (subm_path : String) : String :=
  "gcc -o \"" ++ (subm_path ++ "/" ++ "generated.out") ++ "\" \"" ++
    (subm_path ++ "/" ++ "assembly.s") ++ "\""

/-- The stage-3 command string of TestRunner.run: run the secondary
executable and diff its stdout against the expected output file. -/
def TestRunner.cmd3 (subm_path out : String) : String :=
  "\"" ++ (subm_path ++ "/" ++ "generated.out") ++ "\" | diff \"" ++ out ++ "\" - || :"

/-- The body of TestRunner.run's per-testcase loop: run the three
stage commands through CommandExecutor.run and record (id, matches),
where matches is False when the final exit code is non-zero, or no
output was captured, or the whitespace-stripped captured output is
non-empty, and True otherwise. -/
def TestRunner.run_one (env : Env) (cwd bin_path subm_path : String) (test : Testcase) :
    String × Bool :=
  let r := (CommandExecutor.run env cwd
    [TestRunner.cmd1 bin_path subm_path test.input,
     TestRunner.cmd2 subm_path,
     TestRunner.cmd3 subm_path test.output]).1
  let status : Bool :=
    match r.1, r.2.1 with
    | some 0, some o => (pyStrip o).length == 0
    | _, _ => false
  (test.id, status)

/-- TestRunner.run: executes every testcase in order, producing one
(id, passed) pair per testcase. -/
def TestRunner.run (env : Env) (cwd : String) (testcases : List Testcase)
    (bin_path subm_path : String) : List (String × Bool) :=
  testcases.map (TestRunner.run_one env cwd bin_path subm_path)

/-- score_subm: 0.5 marks added for every passed entry of the test
summary. -/
def score_subm (tsumm : List (String × Bool)) : ℚ :=
  tsumm.foldl (fun score p => if p.2 then score + 1 / 2 else score) 0

/-- The per-submission result dict of Evaluator.evaluate. Fields that
the script initialises to None are Options here. -/
structure EvalResult where
  subm_id : String
  error_obj : Option EvalError
  nb_tests : Option Nat
  passed : Option Nat
  failed : Option Nat
  tsumm : List (String × Bool)
  score : Option ℚ
deriving DecidableEq, Repr

/-- Evaluator.evaluate: extract, build, locate the binary, run the
tests and score, converting the first raised stage exception into the
error_obj field of the otherwise untouched initial result dict. -/
def Evaluator.evaluate (env : Env) (cwd extractdir : String)
    (testcases : List Testcase) (subm : Submission) : EvalResult :=
  let base : EvalResult :=
    ⟨subm.rollno, none, none, none, none, [], none⟩
  let subm_path := extractdir ++ "/" ++ subm.rollno
  match extract_tar env cwd subm.tarpath subm_path with
  | Except.error e => { base with error_obj := some e }
  | Except.ok _ =>
    let b := build_subm env cwd subm_path
    match b.1 with
    | Except.error e => { base with error_obj := some e }
    | Except.ok _ =>
      match find_binary (env.listdir subm_path) subm_path with
      | Except.error e => { base with error_obj := some e }
      | Except.ok bin_path =>
        let tsumm := TestRunner.run env b.2 testcases bin_path subm_path
        let nb := tsumm.length
        let failed := (tsumm.filter (fun p => !p.2)).length
        { base with
          nb_tests := some nb
          failed := some failed
          passed := some (nb - failed)
          tsumm := tsumm
          score := some (score_subm tsumm) }

/-- Python's str.lower() restricted to ASCII text (all text the script
lowercases is a matched roll number, hence ASCII): lower-case every
character. -/
def pyLower (s : String) : String :=
  String.mk (s.toList.map Char.toLower)

/-- The roll-number pattern CS\d{2}B\d{3} (case-insensitive) tested at
the head of a character list. -/
def rollnoAt (l : List Char) : Bool :=
  match l with
  | c1 :: c2 :: c3 :: c4 :: c5 :: c6 :: c7 :: c8 :: _ =>
    (c1 = 'C' || c1 = 'c') && (c2 = 'S' || c2 = 's') &&
    c3.isDigit && c4.isDigit &&
    (c5 = 'B' || c5 = 'b') &&
    c6.isDigit && c7.isDigit && c8.isDigit
  | _ => false

/-- Leftmost-match search for the roll-number pattern over a character
list; returns the matched eight characters. -/
def rollnoSearchAux : List Char → Option String
  | [] => none
  | c :: rest =>
    if rollnoAt (c :: rest) then some (String.mk ((c :: rest).take 8))
    else rollnoSearchAux rest

/-- ROLLNO_REGEX.search(s) followed by .group(): the leftmost substring
matching CS\d{2}B\d{3}, case-insensitively, if any. -/
def ROLLNO_REGEX_search (s : String) : Option String :=
  rollnoSearchAux s.toList

/-- One immediate subdirectory of the extracted outer zip: its name and
the names of the files it contains, in directory-listing order. -/
structure SubDir where
  name : String
  files : List String
deriving DecidableEq, Repr

/-- extract_submissions' per-subdirectory loop (after the outer zip has
been extracted to extract_path): take the first contained file of each
subdirectory, skip the subdirectory when it is empty or when the
roll-number pattern does not match that file's name, and otherwise
record the lower-cased matched roll number and the tar's path. -/
def extract_submissions (extract_path : String) : List SubDir → List Submission
  | [] => []
  | d :: rest =>
    match d.files with
    | [] => extract_submissions extract_path rest
    | t :: _ =>
      match ROLLNO_REGEX_search t with
      | none => extract_submissions extract_path rest
      | some m =>
        ⟨pyLower m, extract_path ++ "/" ++ d.name ++ "/" ++ t⟩ ::
          extract_submissions extract_path rest

/-- The single-submission branch of main: search the roll-number
pattern in the basename of the given source path; when it does not
match, or the path does not exist, print an error and exit with status
-5; otherwise the submission list is one record with the lower-cased
matched roll number. The Int error is the process exit status. -/
def main_single (src_basename : String) (src_exists : Bool) (src : String) :
    Except Int (List Submission) :=
  match ROLLNO_REGEX_search src_basename with
  | none => Except.error (-5)
  | some m =>
    if src_exists then Except.ok [⟨pyLower m, src⟩]
    else Except.error (-5)

/-! ## Concrete environments used to instantiate the theorems below. -/

/-- An environment in which every command succeeds with empty output and
every directory contains exactly the file a.out (regular, executable). -/
def envOK : Env := ⟨fun _ _ => (0, ""), fun _ => [⟨"a.out", true, true⟩]⟩

/-- An environment in which make exits with status 2 and every other
command succeeds. -/
def envMakeFail : Env :=
  ⟨fun _ c => if c = "make" then (2, "boom") else (0, ""), fun _ => []⟩

/-- An environment in which the command B exits with status 3 and output
boom, and every other command succeeds with output ok. -/
def envBC : Env :=
  ⟨fun _ c => if c = "B" then (3, "boom") else (0, "ok"), fun _ => []⟩

/-! ## Helper lemmas. -/

/-- Evaluating CommandExecutor.run on a single command. -/
theorem commandExecutor_run_single (env : Env) (cwd c : String) :
    CommandExecutor.run env cwd [c] =
      ((some (run_bash env cwd c).1, (run_bash env cwd c).2.1,
        (run_bash env cwd c).2.2), [c]) := by
  simp only [CommandExecutor.run]
  split <;> rfl

/-- The exit code reported by run_bash is the exit code of the bash
invocation itself. -/
theorem run_bash_fst (env : Env) (cwd c : String) :
    (run_bash env cwd c).1 = (env.bash cwd c).1 := by
  unfold run_bash
  by_cases h : (env.bash cwd c).1 = 0 <;> simp [h]

/-! ## C10: build_subm restores the working directory. -/

/-- C10: after build_subm completes, normally or with a MakeError, the
Python process's current working directory equals what it was before
the call: the change into the submission directory is undone
unconditionally, before the make exit code is inspected. -/
theorem build_subm_restores_cwd (env : Env) (cwd subm_path : String) :
    (build_subm env cwd subm_path).2 = cwd := by
  simp only [build_subm]
  split <;> rfl

/-! ## C5: the build step checks only the make exit code. -/

/-- C5: build_subm raises MakeError exactly when the make command exits
non-zero; the clean command's exit code is quantified over freely and
never inspected, so a failing clean with a succeeding make does not
raise. -/
theorem build_subm_error_iff_make (env : Env) (cwd subm_path : String) :
    (build_subm env cwd subm_path).1 = Except.error EvalError.makeError ↔
      (env.bash subm_path "make").1 ≠ 0 := by
  simp only [build_subm, commandExecutor_run_single]
  by_cases h : (env.bash subm_path "make").1 = 0 <;>
    simp [run_bash_fst, h]

/-! ## C3: command sequences short-circuit on the first failure. -/

/-- C3: running the sequence [A, B, C] when A succeeds and B exits
non-zero executes exactly A and B (C is never run), and returns B's
exit code together with B's captured combined output as the error
output. -/
theorem commandExecutor_run_short_circuit (env : Env) (cwd A B C : String)
    (oA : String) (hA : env.bash cwd A = (0, oA))
    (hB : (env.bash cwd B).1 ≠ 0) :
    CommandExecutor.run env cwd [A, B, C] =
      ((some (env.bash cwd B).1, none, some (env.bash cwd B).2), [A, B]) := by
  simp only [CommandExecutor.run]
  simp [run_bash, hA, hB]

/-- Witness for C3 at a concrete environment: B fails with exit code 3
and output boom, so the run stops after [A, B] and reports (3, boom). -/
theorem commandExecutor_run_short_circuit_app :
    CommandExecutor.run envBC "w" ["A", "B", "C"] =
      ((some 3, none, some "boom"), ["A", "B"]) := by
  have h := commandExecutor_run_short_circuit envBC "w" "A" "B" "C" "ok"
    (by decide) (by decide)
  exact h.trans (by decide)

/-! ## C9: one outcome per fixture, in order. -/

/-- C9: TestRunner.run produces exactly one outcome per testcase,
carrying that testcase's id, in the order of the testcase list; in
particular the outcome list's length equals (hence never exceeds) the
testcase list's length. -/
theorem testrunner_run_ids (env : Env) (cwd : String) (testcases : List Testcase)
    (bin_path subm_path : String) :
    (TestRunner.run env cwd testcases bin_path subm_path).map Prod.fst =
        testcases.map Testcase.id ∧
    (TestRunner.run env cwd testcases bin_path subm_path).length =
        testcases.length := by
  constructor
  · rw [TestRunner.run, List.map_map]
    rfl
  · rw [TestRunner.run, List.length_map]

/-! ## Scoring lemmas shared by the Evaluator theorems. -/

/-- Unrolling score_subm's fold from an arbitrary accumulator. -/
theorem score_subm_go (l : List (String × Bool)) (s : ℚ) :
    l.foldl (fun score p => if p.2 then score + 1 / 2 else score) s =
      s + ((l.filter (fun p => p.2)).length : ℚ) * (1 / 2) := by
  induction l generalizing s with
  | nil => simp
  | cons a l ih =>
    cases h : a.2 with
    | false => simpa [h] using ih s
    | true =>
      simp only [List.foldl_cons, List.filter_cons, h, if_true, List.length_cons,
        Nat.cast_add, Nat.cast_one, ih]
      ring

/-- score_subm is half the number of passed entries. -/
theorem score_subm_eq (l : List (String × Bool)) :
    score_subm l = ((l.filter (fun p => p.2)).length : ℚ) * (1 / 2) := by
  have h := score_subm_go l 0
  simpa [score_subm] using h

/-- score_subm is invariant under permutation of the test summary. -/
theorem score_subm_perm {l l' : List (String × Bool)} (h : l.Perm l') :
    score_subm l = score_subm l' := by
  rw [score_subm_eq, score_subm_eq, (h.filter (fun p => p.2)).length_eq]

/-- Case analysis of Evaluator.evaluate: with no stage failure the
score is score_subm of the recorded summary; with a stage failure the
summary and the score keep their initial values [] and None. -/
theorem evaluate_spec (env : Env) (cwd extractdir : String)
    (testcases : List Testcase) (subm : Submission) :
    ((Evaluator.evaluate env cwd extractdir testcases subm).error_obj = none →
      (Evaluator.evaluate env cwd extractdir testcases subm).score =
        some (score_subm (Evaluator.evaluate env cwd extractdir testcases subm).tsumm)) ∧
    ((Evaluator.evaluate env cwd extractdir testcases subm).error_obj ≠ none →
      (Evaluator.evaluate env cwd extractdir testcases subm).tsumm = [] ∧
      (Evaluator.evaluate env cwd extractdir testcases subm).score = none) := by
  simp only [Evaluator.evaluate]
  split
  · simp
  · split
    · simp
    · split
      · simp
      · simp

/-! ## C1: the score is half the number of passed outcomes. -/

/-- C1: whenever evaluation reaches the scoring step (no stage raised,
so error_obj is None), the recorded score is 0.5 times the number of
passed outcomes, and score_subm gives the same score on any
permutation of the outcome list. -/
theorem evaluate_score_half_count (env : Env) (cwd extractdir : String)
    (testcases : List Testcase) (subm : Submission)
    (h : (Evaluator.evaluate env cwd extractdir testcases subm).error_obj = none) :
    (Evaluator.evaluate env cwd extractdir testcases subm).score =
      some ((1 / 2 : ℚ) *
        ((Evaluator.evaluate env cwd extractdir testcases subm).tsumm.filter
          (fun p => p.2)).length) ∧
    ∀ l, ((Evaluator.evaluate env cwd extractdir testcases subm).tsumm).Perm l →
      score_subm l =
        score_subm ((Evaluator.evaluate env cwd extractdir testcases subm).tsumm) := by
  have hs := (evaluate_spec env cwd extractdir testcases subm).1 h
  constructor
  · rw [hs, score_subm_eq, mul_comm]
  · intro l hl
    exact (score_subm_perm hl).symm

/-- Witness for C1 at a concrete environment in which all commands
succeed with empty output and the single testcase passes. -/
theorem evaluate_score_half_count_app :
    (Evaluator.evaluate envOK "w" "x" [⟨"t1", "i", "o"⟩] ⟨"cs18b001", "t"⟩).score =
      some ((1 / 2 : ℚ) *
        ((Evaluator.evaluate envOK "w" "x" [⟨"t1", "i", "o"⟩] ⟨"cs18b001", "t"⟩).tsumm.filter
          (fun p => p.2)).length) :=
  (evaluate_score_half_count envOK "w" "x" [⟨"t1", "i", "o"⟩] ⟨"cs18b001", "t"⟩
    (by decide)).1

/-! ## C2: results with a stage failure. -/

/-- C2, counterexample to the claim as stated: a submission whose make
exits with status 2 ends with a stage failure (error_obj = MakeError)
and an empty outcome list, but its score field is None (its initial
value), not 0: the scoring line is skipped by the raised exception. -/
theorem evaluate_stage_failure_score_not_zero :
    (Evaluator.evaluate envMakeFail "w" "x" [] ⟨"cs18b001", "t"⟩).error_obj =
        some EvalError.makeError ∧
    (Evaluator.evaluate envMakeFail "w" "x" [] ⟨"cs18b001", "t"⟩).tsumm = [] ∧
    ¬ (Evaluator.evaluate envMakeFail "w" "x" [] ⟨"cs18b001", "t"⟩).score =
        some (0 : ℚ) := by
  decide

/-- C2 as amended: every evaluation that ends with a non-null stage
failure has an empty outcome list and a score left at None (unset),
rather than a score of 0. -/
theorem evaluate_stage_failure_empty (env : Env) (cwd extractdir : String)
    (testcases : List Testcase) (subm : Submission)
    (h : (Evaluator.evaluate env cwd extractdir testcases subm).error_obj ≠ none) :
    (Evaluator.evaluate env cwd extractdir testcases subm).tsumm = [] ∧
    (Evaluator.evaluate env cwd extractdir testcases subm).score = none :=
  (evaluate_spec env cwd extractdir testcases subm).2 h

/-- Witness for C2's amended theorem at the concrete failing-make
environment. -/
theorem evaluate_stage_failure_empty_app :
    (Evaluator.evaluate envMakeFail "w" "x" [] ⟨"cs18b001", "t"⟩).tsumm = [] ∧
    (Evaluator.evaluate envMakeFail "w" "x" [] ⟨"cs18b001", "t"⟩).score = none :=
  evaluate_stage_failure_empty envMakeFail "w" "x" [] ⟨"cs18b001", "t"⟩ (by decide)

/-! ## C4: the pass condition of a fixture. -/

/-- A string has length 0 exactly when it is empty. -/
theorem string_length_eq_zero (s : String) : s.length = 0 ↔ s = "" := by
  cases s with
  | mk l => cases l <;> simp [String.length, String.ext_iff]

/-- An environment in which the diff stage prints a single newline (and
exits 0) and every other command succeeds with empty output. -/
def envWS : Env :=
  ⟨fun _ c => if c = TestRunner.cmd3 "s" "o" then (0, "\n") else (0, ""), fun _ => []⟩

/-- C4, counterexample to the claim as stated: with a diff-stage output
consisting of one newline, the captured output of the pipeline is the
non-empty string consisting of a newline, yet the outcome is passed =
true, because the code strips whitespace before testing emptiness. -/
theorem testrunner_whitespace_output_passes :
    TestRunner.run envWS "w" [⟨"t1", "i", "o"⟩] "b" "s" = [("t1", true)] ∧
    (CommandExecutor.run envWS "w"
      [TestRunner.cmd1 "b" "s" "i", TestRunner.cmd2 "s",
       TestRunner.cmd3 "s" "o"]).1.2.1 = some "\n" ∧
    ("\n" : String) ≠ "" := by
  decide

/-- C4 as amended: a fixture's outcome is passed = true exactly when
the three-stage pipeline ends with exit code 0 and a captured output
that is empty after stripping leading and trailing whitespace; a
non-zero exit anywhere (including stage 1 or 2, whose failure
short-circuits the pipeline) or any non-whitespace diff output yields
passed = false. -/
theorem testrunner_pass_iff (env : Env) (cwd bin_path subm_path : String) (t : Testcase) :
    TestRunner.run env cwd [t] bin_path subm_path = [(t.id, true)] ↔
      ((CommandExecutor.run env cwd
          [TestRunner.cmd1 bin_path subm_path t.input,
           TestRunner.cmd2 subm_path,
           TestRunner.cmd3 subm_path t.output]).1.1 = some 0 ∧
       ∃ o, (CommandExecutor.run env cwd
          [TestRunner.cmd1 bin_path subm_path t.input,
           TestRunner.cmd2 subm_path,
           TestRunner.cmd3 subm_path t.output]).1.2.1 = some o ∧ pyStrip o = "") := by
  set r := (CommandExecutor.run env cwd
    [TestRunner.cmd1 bin_path subm_path t.input,
     TestRunner.cmd2 subm_path,
     TestRunner.cmd3 subm_path t.output]).1 with hr
  simp only [TestRunner.run, List.map, TestRunner.run_one]
  rcases h1 : r.1 with _ | n
  · simp [h1]
  · rcases h2 : r.2.1 with _ | o
    · simp [h1, h2]
    · by_cases h3 : n = 0
      · subst h3
        simp [h1, h2, string_length_eq_zero]
      · simp [h1, h2, h3]

/-! ## C6: binary location. -/

/-- The containment test on mapped names, in existential form. -/
theorem contains_name_iff (entries : List FSEntry) :
    (entries.map FSEntry.name).contains "a.out" = true ↔
      ∃ e ∈ entries, e.name = "a.out" := by
  simp

/-- C6: find_binary returns the a.out path whenever some directory
entry bears that name; otherwise it returns the first entry that is a
regular executable file; and it raises BinaryNotFound exactly when
neither kind of entry exists. -/
theorem find_binary_spec (entries : List FSEntry) (dir_path : String) :
    ((∃ e ∈ entries, e.name = "a.out") →
        find_binary entries dir_path = Except.ok (dir_path ++ "/" ++ "a.out")) ∧
    (∀ e, (¬ ∃ e ∈ entries, e.name = "a.out") →
        entries.find? (fun e => e.isFile && e.isExec) = some e →
        find_binary entries dir_path = Except.ok (dir_path ++ "/" ++ e.name)) ∧
    (find_binary entries dir_path = Except.error EvalError.binaryNotFound ↔
        ((¬ ∃ e ∈ entries, e.name = "a.out") ∧
         ¬ ∃ e ∈ entries, e.isFile = true ∧ e.isExec = true)) := by
  refine ⟨?_, ?_, ?_⟩
  · intro hex
    have hc : (entries.map FSEntry.name).contains "a.out" = true :=
      (contains_name_iff entries).mpr hex
    simp only [find_binary, hc, if_true]
  · intro e hnex hfind
    have hc : (entries.map FSEntry.name).contains "a.out" = false :=
      Bool.eq_false_iff.mpr (fun h => hnex ((contains_name_iff entries).mp h))
    simp only [find_binary, hc, Bool.false_eq_true, if_false, hfind]
  · by_cases hc : (entries.map FSEntry.name).contains "a.out" = true
    · have hex := (contains_name_iff entries).mp hc
      simp only [find_binary, hc, if_true]
      constructor
      · intro h
        exact absurd h (by simp)
      · rintro ⟨hnex, _⟩
        exact absurd hex hnex
    · have hc0 : (entries.map FSEntry.name).contains "a.out" = false :=
        Bool.eq_false_iff.mpr hc
      have hnex1 : ¬ ∃ e ∈ entries, e.name = "a.out" := fun h =>
        hc ((contains_name_iff entries).mpr h)
      cases hf : entries.find? (fun e => e.isFile && e.isExec) with
      | some e =>
        have hmem := List.mem_of_find?_eq_some hf
        have hp := List.find?_some hf
        have hex2 : ∃ x ∈ entries, x.isFile = true ∧ x.isExec = true :=
          ⟨e, hmem, by simpa using hp⟩
        simp only [find_binary, hc0, Bool.false_eq_true, if_false, hf]
        constructor
        · intro h
          exact absurd h (by simp)
        · rintro ⟨_, hnex2⟩
          exact absurd hex2 hnex2
      | none =>
        have hnone : ∀ x ∈ entries, ¬ (x.isFile && x.isExec) = true := by
          simpa [List.find?_eq_none] using hf
        have hnex2 : ¬ ∃ e ∈ entries, e.isFile = true ∧ e.isExec = true := by
          rintro ⟨x, hm, h1, h2⟩
          exact hnone x hm (by simp [h1, h2])
        simp only [find_binary, hc0, Bool.false_eq_true, if_false, hf]
        exact iff_of_true trivial ⟨hnex1, hnex2⟩

/-- Witness for C6 on a directory containing exactly an executable
regular file named a.out. -/
theorem find_binary_spec_app :
    find_binary [⟨"a.out", true, true⟩] "d" =
      Except.ok ("d" ++ "/" ++ "a.out") :=
  (find_binary_spec [⟨"a.out", true, true⟩] "d").1
    ⟨⟨"a.out", true, true⟩, by simp, rfl⟩

/-! ## C7: batch-mode enumeration of submissions. -/

/-- C7: a subdirectory whose first contained file does not match the
roll-number pattern contributes no submission record (silent skip);
every produced record's identifier is the lower-cased matched token of
some subdirectory's first file; and the number of records equals the
number of subdirectories whose first file matches the pattern. -/
theorem extract_submissions_spec (p : String) :
    (∀ d ds t, d.files.head? = some t → ROLLNO_REGEX_search t = none →
        extract_submissions p (d :: ds) = extract_submissions p ds) ∧
    (∀ ds, ∀ s ∈ extract_submissions p ds, ∃ d ∈ ds, ∃ t rest m,
        d.files = t :: rest ∧ ROLLNO_REGEX_search t = some m ∧
        s.rollno = pyLower m) ∧
    (∀ ds : List SubDir, (extract_submissions p ds).length =
      (ds.filter (fun d => (d.files.head?.bind
        (fun t => ROLLNO_REGEX_search t)).isSome)).length) := by
  refine ⟨?_, ?_, ?_⟩
  · intro d ds t ht hnone
    cases hf : d.files with
    | nil => simp [hf] at ht
    | cons a l =>
      rw [hf] at ht
      simp only [List.head?_cons, Option.some.injEq] at ht
      subst ht
      simp [extract_submissions, hf, hnone]
  · intro ds
    induction ds with
    | nil => simp [extract_submissions]
    | cons d rest ih =>
      intro s hs
      cases hf : d.files with
      | nil =>
        simp only [extract_submissions, hf] at hs
        obtain ⟨d', hd', w⟩ := ih s hs
        exact ⟨d', List.mem_cons_of_mem d hd', w⟩
      | cons t ts =>
        cases hm : ROLLNO_REGEX_search t with
        | none =>
          simp only [extract_submissions, hf, hm] at hs
          obtain ⟨d', hd', w⟩ := ih s hs
          exact ⟨d', List.mem_cons_of_mem d hd', w⟩
        | some m =>
          simp only [extract_submissions, hf, hm] at hs
          rcases List.mem_cons.mp hs with h | h
          · exact ⟨d, List.mem_cons_self d rest, t, ts, m, hf, hm, by rw [h]⟩
          · obtain ⟨d', hd', w⟩ := ih s h
            exact ⟨d', List.mem_cons_of_mem d hd', w⟩
  · intro ds
    induction ds with
    | nil => simp [extract_submissions]
    | cons d rest ih =>
      cases hf : d.files with
      | nil =>
        simp only [extract_submissions, hf, List.filter_cons]
        simp [ih]
      | cons t ts =>
        cases hm : ROLLNO_REGEX_search t with
        | none =>
          simp only [extract_submissions, hf, hm, List.filter_cons]
          simp [hm, ih]
        | some m =>
          simp only [extract_submissions, hf, hm, List.filter_cons]
          simp [hm, ih]

/-- Witness for C7: a non-matching subdirectory is skipped outright,
and the spec's batch of three student subdirectories of which one has
an invalid inner archive name yields exactly two submissions. -/
theorem extract_submissions_spec_app :
    extract_submissions "x" [⟨"d2", ["junk.tar.gz"]⟩, ⟨"d1", ["CS18B001.tar.gz"]⟩] =
      extract_submissions "x" [⟨"d1", ["CS18B001.tar.gz"]⟩] ∧
    (extract_submissions "x" [⟨"d1", ["CS18B001.tar.gz"]⟩, ⟨"d2", ["junk.tar.gz"]⟩,
        ⟨"d3", ["cs18b777.tar.xz"]⟩]).length = 2 :=
  ⟨(extract_submissions_spec "x").1 ⟨"d2", ["junk.tar.gz"]⟩
      [⟨"d1", ["CS18B001.tar.gz"]⟩] "junk.tar.gz" rfl (by decide),
   ((extract_submissions_spec "x").2.2 [⟨"d1", ["CS18B001.tar.gz"]⟩,
      ⟨"d2", ["junk.tar.gz"]⟩, ⟨"d3", ["cs18b777.tar.xz"]⟩]).trans (by decide)⟩

/-! ## C8: single-mode submission resolution. -/

/-- C8: the single-submission branch of main exits with status -5 (the
invalid-identifier failure) exactly when the archive's basename does
not contain the roll-number pattern or the file does not exist, and
otherwise produces exactly one submission whose identifier is the
lower-cased matched token. -/
theorem main_single_spec (src_basename : String) (src_exists : Bool) (src : String) :
    (main_single src_basename src_exists src = Except.error (-5) ↔
        ROLLNO_REGEX_search src_basename = none ∨ src_exists = false) ∧
    (∀ m, ROLLNO_REGEX_search src_basename = some m → src_exists = true →
        main_single src_basename src_exists src = Except.ok [⟨pyLower m, src⟩]) := by
  constructor
  · cases hs : ROLLNO_REGEX_search src_basename with
    | none => cases src_exists <;> simp [main_single, hs]
    | some m => cases src_exists <;> simp [main_single, hs]
  · intro m hm hex
    subst hex
    simp [main_single, hm]

/-- Witness for C8 on an existing, validly named archive. -/
theorem main_single_spec_app :
    main_single "CS18B001.tar.gz" true "p" = Except.ok [⟨"cs18b001", "p"⟩] := by
  have h := (main_single_spec "CS18B001.tar.gz" true "p").2 "CS18B001" (by decide) rfl
  rw [(by decide : pyLower "CS18B001" = "cs18b001")] at h
  exact h
